import Mathlib

set_option maxHeartbeats 1000000
set_option maxRecDepth 10000

/-!
Verification of the Attention CV request-routing supervisor.

This file gives a shallow embedding of the core of the repository:
the session memory store (`backend/app/services/data/memory_service.py`),
the RAG context builder (`backend/app/services/data/document_service.py`),
and the supervisor / chat / code agents
(`backend/app/services/ai/supervisor.py`) together with the HTTP wrapper
`supervisor_routing` (`backend/app/api/v1/endpoints/chat.py`).

Python strings are modelled as Lean `String`s (sequences of code points);
the helper functions below reproduce the Python string primitives used by
the source (`split`, `strip`, `lower`, slicing, `join`, `in`, truthiness of
optional strings).  Python dicts keyed by session id are modelled as
insertion-ordered association lists.  Object identity of the per-session
history objects is modelled by using the session key itself as the handle
through which reads and appends go.
-/

/-- Prefix test on character lists (used to model Python substring search). -/
def charsPrefix : List Char → List Char → Bool
  | [], _ => true
  | _ :: _, [] => false
  | a :: as, b :: bs => a == b && charsPrefix as bs

/-- Containment test on character lists: does `needle` occur in `hay`? -/
def charsContains (hay needle : List Char) : Bool :=
  match hay with
  | [] => needle.isEmpty
  | _ :: rest => charsPrefix needle hay || charsContains rest needle

/-- Python `needle in s` for strings. -/
def pyIn (s needle : String) : Bool :=
  charsContains s.data needle.data

/-- Splitting of a character list on every non-overlapping occurrence of a
non-empty separator, left to right, as Python `str.split(sep)` does.  The
fuel argument (always instantiated with the list length, which each step
strictly decreases) keeps the recursion structural so that the kernel can
evaluate it. -/
def pySplitChars (sep : List Char) : Nat → List Char → List (List Char)
  | _, [] => [[]]
  | 0, l => [l]
  | Nat.succ n, c :: rest =>
    if sep ≠ [] ∧ charsPrefix sep (c :: rest) = true then
      [] :: pySplitChars sep n ((c :: rest).drop sep.length)
    else
      match pySplitChars sep n rest with
      | [] => [[c]]
      | t :: ts => (c :: t) :: ts

/-- Python `s.split(sep)` for a non-empty separator. -/
def pySplit (s sep : String) : List String :=
  (pySplitChars sep.data s.data.length s.data).map String.mk

/-- Characters stripped by Python `str.strip()` with no argument. -/
def isPySpace (c : Char) : Bool :=
  c == ' ' || c == '\t' || c == '\n' || c == '\r' || c == '\x0b' || c == '\x0c'

/-- Python `s.strip()`. -/
def pyStrip (s : String) : String :=
  String.mk (((s.data.dropWhile isPySpace).reverse.dropWhile isPySpace).reverse)

/-- Python `s.lower()` (the source only lower-cases ASCII language tags). -/
def pyLower (s : String) : String :=
  String.mk (s.data.map Char.toLower)

/-- Python `s[:n]` for a non-negative bound `n`. -/
def pySlice (s : String) (n : Nat) : String :=
  String.mk (s.data.take n)

/-- Python `sep.join(parts)`. -/
def pyJoin (sep : String) : List String → String
  | [] => ""
  | x :: xs => xs.foldl (fun acc y => acc ++ sep ++ y) x

/-- Python `x or d` for an optional string `x` (None and `""` are falsy). -/
def pyOrD (o : Option String) (d : String) : String :=
  match o with
  | some s => if s = "" then d else s
  | none => d

/-- Python truthiness of an optional string. -/
def pyTruthyStr (o : Option String) : Bool :=
  match o with
  | some s => !s.isEmpty
  | none => false

/-! ### Session memory store (`memory_service.py`) -/

/-- Conversation messages (`HumanMessage` / `AIMessage`). -/
inductive Msg where
  | human (content : String)
  | ai (content : String)
deriving DecidableEq

/-- Uploaded document: extracted text plus the `source_file` metadata entry
(the only metadata key read by `create_rag_context`). -/
structure Document where
  page_content : String
  source_file : Option String
deriving DecidableEq

/-- State of the global `MemoryService` singleton: `chat_histories` and
`session_documents`, both dicts keyed by session id. -/
structure MemState where
  chat_histories : List (String × List Msg)
  session_documents : List (String × List Document)
deriving DecidableEq

/-- Dict lookup (first matching key). -/
def dictGet {α : Type} (k : String) : List (String × α) → Option α
  | [] => none
  | (k', v) :: rest => if k' = k then some v else dictGet k rest

/-- Dict key list, in insertion order (Python `.keys()`). -/
def dictKeys {α : Type} (l : List (String × α)) : List String :=
  l.map Prod.fst

/-- In-place modification of the value stored at key `k`. -/
def dictUpdate {α : Type} (k : String) (f : α → α) : List (String × α) → List (String × α)
  | [] => []
  | (k', v) :: rest =>
    if k' = k then (k', f v) :: dictUpdate k f rest else (k', v) :: dictUpdate k f rest

/-- Python `del d[k]`. -/
def dictDelete {α : Type} (k : String) (l : List (String × α)) :
    List (String × α) :=
  l.filter (fun p => decide (p.1 ≠ k))

/-- Model of `MemoryService.get_session_history`: creates an empty history on
first access; the returned handle is the session key (object identity of the
`InMemoryChatMessageHistory` instance is modelled by key-aliasing). -/
def get_session_history (s : MemState) (sid : String) : MemState × String :=
  match dictGet sid s.chat_histories with
  | some _ => (s, sid)
  | none => ({ s with chat_histories := s.chat_histories ++ [(sid, [])] }, sid)

/-- Messages visible through a history handle. -/
def readMessages (s : MemState) (h : String) : List Msg :=
  (dictGet h s.chat_histories).getD []

/-- Model of `InMemoryChatMessageHistory.add_message` through a handle. -/
def addMessage (s : MemState) (h : String) (m : Msg) : MemState :=
  { s with chat_histories := dictUpdate h (fun msgs => msgs ++ [m]) s.chat_histories }

/-- Model of `MemoryService.clear_session_history`: empties the history object
in place (the dict key survives) and returns whether the session existed. -/
def clear_session_history (s : MemState) (sid : String) : MemState × Bool :=
  match dictGet sid s.chat_histories with
  | some _ => ({ s with chat_histories := dictUpdate sid (fun _ => []) s.chat_histories }, true)
  | none => (s, false)

/-- Model of `MemoryService.get_session_message_count`. -/
def get_session_message_count (s : MemState) (sid : String) : Nat :=
  match dictGet sid s.chat_histories with
  | some msgs => msgs.length
  | none => 0

/-- Model of `MemoryService.list_active_sessions`. -/
def list_active_sessions (s : MemState) : List String :=
  dictKeys s.chat_histories

/-- Model of `MemoryService.get_session_documents`. -/
def get_session_documents (s : MemState) (sid : String) : List Document :=
  (dictGet sid s.session_documents).getD []

/-- Model of `MemoryService.clear_session_documents`: deletes the dict entry. -/
def clear_session_documents (s : MemState) (sid : String) : MemState × Bool :=
  match dictGet sid s.session_documents with
  | some _ => ({ s with session_documents := dictDelete sid s.session_documents }, true)
  | none => (s, false)

/-- Model of `MemoryService.get_session_document_count`. -/
def get_session_document_count (s : MemState) (sid : String) : Nat :=
  (get_session_documents s sid).length

/-! ### Dictionary lemmas -/

theorem dictGet_update_self {α : Type} (k : String) (f : α → α) (l : List (String × α)) :
    dictGet k (dictUpdate k f l) = (dictGet k l).map f := by
  induction l with
  | nil => rfl
  | cons p rest ih =>
    obtain ⟨k', v⟩ := p
    by_cases hk : k' = k
    · subst hk
      simp [dictUpdate, dictGet]
    · simpa [dictUpdate, dictGet, hk] using ih

theorem dictKeys_update {α : Type} (k : String) (f : α → α) (l : List (String × α)) :
    dictKeys (dictUpdate k f l) = dictKeys l := by
  induction l with
  | nil => rfl
  | cons p rest ih =>
    obtain ⟨k', v⟩ := p
    by_cases hk : k' = k
    · subst hk
      simpa [dictUpdate, dictKeys] using ih
    · simpa [dictUpdate, dictKeys, hk] using ih

theorem dictGet_isSome_iff {α : Type} (k : String) (l : List (String × α)) :
    (dictGet k l).isSome = true ↔ k ∈ dictKeys l := by
  induction l with
  | nil => simp [dictGet, dictKeys]
  | cons p rest ih =>
    obtain ⟨k', v⟩ := p
    by_cases hk : k' = k
    · subst hk
      simp [dictGet, dictKeys]
    · simp [dictGet, dictKeys, hk, ih]
      intro h
      exact absurd h.symm hk

theorem dictGet_append_self {α : Type} (k : String) (v : α) (l : List (String × α))
    (h : dictGet k l = none) : dictGet k (l ++ [(k, v)]) = some v := by
  induction l with
  | nil => simp [dictGet]
  | cons p rest ih =>
    obtain ⟨k', v'⟩ := p
    by_cases hk : k' = k
    · simp [dictGet, hk] at h
    · simp only [dictGet, hk, if_false, List.cons_append, ite_false]
      exact ih (by simpa [dictGet, hk] using h)

theorem get_session_history_handle (s : MemState) (sid : String) :
    (get_session_history s sid).2 = sid := by
  unfold get_session_history
  cases dictGet sid s.chat_histories <;> rfl

/-! ### Claims C8, C9, C10: memory store behaviour -/

/-- Claim C8: clearing an existing session's history returns `true` and leaves
its message count at 0, while clearing a never-created session id returns
`false` and creates nothing (the key set, and indeed the whole store, is
unchanged). -/
theorem clear_session_history_spec (s : MemState) (sid : String) :
    ((clear_session_history s sid).2 = true ↔ sid ∈ list_active_sessions s)
    ∧ get_session_message_count (clear_session_history s sid).1 sid = 0
    ∧ list_active_sessions (clear_session_history s sid).1 = list_active_sessions s
    ∧ (sid ∉ list_active_sessions s → (clear_session_history s sid).1 = s) := by
  cases hg : dictGet sid s.chat_histories with
  | some msgs =>
    have hmem : sid ∈ list_active_sessions s := by
      have h := (dictGet_isSome_iff sid s.chat_histories).mp (by simp [hg])
      simpa [list_active_sessions] using h
    refine ⟨by simp [clear_session_history, hg, hmem], ?_, ?_, ?_⟩
    · simp [clear_session_history, hg, get_session_message_count, dictGet_update_self]
    · simp [clear_session_history, hg, list_active_sessions, dictKeys_update]
    · intro hnot
      exact absurd hmem hnot
  | none =>
    have hmem : sid ∉ list_active_sessions s := by
      intro hmem
      have h := (dictGet_isSome_iff sid s.chat_histories).mpr
        (by simpa [list_active_sessions] using hmem)
      simp [hg] at h
    refine ⟨by simp [clear_session_history, hg]; exact fun h => absurd h hmem, ?_, ?_, ?_⟩
    · simp [clear_session_history, hg, get_session_message_count]
    · simp [clear_session_history, hg]
    · intro _
      simp [clear_session_history, hg]

/-- Witness for C8 at a concrete store: clearing a never-created session id
leaves the empty store unchanged. -/
theorem clear_session_history_spec_witness :
    (clear_session_history ⟨[], []⟩ "s1").1 = (⟨[], []⟩ : MemState) :=
  (clear_session_history_spec ⟨[], []⟩ "s1").2.2.2 (by decide)

/-- Claim C9: session lookup is idempotent — a second `get_session_history`
with the same id returns the same state and the same underlying history
handle, and an append observed through one handle is observed through the
other (shared mutable state, not a copy). -/
theorem get_session_history_idempotent (s : MemState) (sid : String) (m : Msg) :
    get_session_history (get_session_history s sid).1 sid = get_session_history s sid
    ∧ readMessages (addMessage (get_session_history s sid).1 (get_session_history s sid).2 m)
        (get_session_history s sid).2
      = readMessages (get_session_history s sid).1 (get_session_history s sid).2 ++ [m] := by
  cases hg : dictGet sid s.chat_histories with
  | some msgs =>
    have h1 : get_session_history s sid = (s, sid) := by
      simp [get_session_history, hg]
    rw [h1]
    constructor
    · simp [get_session_history, hg]
    · simp [readMessages, addMessage, dictGet_update_self, hg]
  | none =>
    have h1 : get_session_history s sid
        = ({ s with chat_histories := s.chat_histories ++ [(sid, [])] }, sid) := by
      simp [get_session_history, hg]
    rw [h1]
    have hg2 : dictGet sid (s.chat_histories ++ [(sid, [])]) = some [] :=
      dictGet_append_self sid [] s.chat_histories hg
    constructor
    · simp [get_session_history, hg2]
    · simp [readMessages, addMessage, dictGet_update_self, hg2]

/-- Claim C10: `clear_session_history` is frame-preserving on documents (the
document dict and this session's document count are untouched, and the session
id set is unchanged), and conversely `clear_session_documents` leaves the
message histories untouched. -/
theorem clear_session_frame (s : MemState) (sid : String) :
    (clear_session_history s sid).1.session_documents = s.session_documents
    ∧ get_session_document_count (clear_session_history s sid).1 sid
        = get_session_document_count s sid
    ∧ list_active_sessions (clear_session_history s sid).1 = list_active_sessions s
    ∧ (clear_session_documents s sid).1.chat_histories = s.chat_histories := by
  have hdocs : (clear_session_history s sid).1.session_documents = s.session_documents := by
    unfold clear_session_history
    cases dictGet sid s.chat_histories <;> rfl
  refine ⟨hdocs, ?_, ?_, ?_⟩
  · unfold get_session_document_count get_session_documents
    rw [hdocs]
  · unfold clear_session_history
    cases hg : dictGet sid s.chat_histories with
    | some msgs => simp [list_active_sessions, dictKeys_update]
    | none => rfl
  · unfold clear_session_documents
    cases dictGet sid s.session_documents <;> rfl

/-! ### RAG context builder (`document_service.py`, `create_rag_context`) -/

/-- Document header used by `create_rag_context`: the f-string
`"\n[Document: {source_file}]\n"` where `source_file` is the metadata entry
or the default `f"Document {i+1}"`. -/
def ragHeader (i : Nat) (d : Document) : String :=
  "\n[Document: " ++ (d.source_file.getD ("Document " ++ toString (i + 1))) ++ "]\n"

/-- One whole block as accumulated by the loop: `header + doc.page_content.strip()`. -/
def ragBlock (i : Nat) (d : Document) : String :=
  ragHeader i d ++ pyStrip d.page_content

/-- Truncation marker appended by the first-block-too-large branch. -/
def ragTruncMarker : String := "...[내용 생략]"

/-- Loop of `create_rag_context` (`document_service.py` lines 123-142).
`remaining_space = max_length - len(header) - 50` uses truncating `Nat`
subtraction; this agrees with Python because the slice is only taken under
the guard `remaining_space > 100`, which fails whenever the Python value
would be non-positive. -/
def ragLoop (max_length : Nat) : Nat → List String → Nat → List Document → List String
  | _, parts, _, [] => parts
  | i, parts, curLen, d :: rest =>
    let total_content := ragBlock i d
    if curLen + total_content.length > max_length then
      if parts = [] then
        let remaining_space := max_length - (ragHeader i d).length - 50
        if remaining_space > 100 then
          parts ++ [ragHeader i d ++ (pySlice (pyStrip d.page_content) remaining_space ++ ragTruncMarker)]
        else parts
      else parts
    else ragLoop max_length (i + 1) (parts ++ [total_content]) (curLen + total_content.length) rest

/-- Model of `DocumentService.create_rag_context`. -/
def create_rag_context (documents : List Document) (max_length : Nat) : String :=
  if documents = [] then ""
  else pyJoin "\n" (ragLoop max_length 0 [] 0 documents)

/-- Blocks of a document list starting at index `i`, in order. -/
def ragBlocksFrom : Nat → List Document → List String
  | _, [] => []
  | i, d :: rest => ragBlock i d :: ragBlocksFrom (i + 1) rest

/-- Total length of a list of strings. -/
def sumLens (l : List String) : Nat := (l.map String.length).sum

/-- Modelled from the spec's words (claim C5), for comparison with the code:
the plain concatenation of `"[Document: <name>]\n<content>"` blocks in
original document order. -/
def spec_concat_blocks (documents : List Document) : String :=
  String.join (documents.map (fun d =>
    "[Document: " ++ d.source_file.getD "" ++ "]\n" ++ d.page_content))

theorem ragLoop_all_fit (max_length : Nat) (docs : List Document) :
    ∀ (i : Nat) (parts : List String) (curLen : Nat),
      curLen + sumLens (ragBlocksFrom i docs) ≤ max_length →
      ragLoop max_length i parts curLen docs = parts ++ ragBlocksFrom i docs := by
  induction docs with
  | nil =>
    intro i parts curLen _
    simp [ragLoop, ragBlocksFrom]
  | cons d rest ih =>
    intro i parts curLen hfit
    simp only [ragBlocksFrom, sumLens, List.map_cons, List.sum_cons] at hfit
    simp only [ragLoop]
    rw [if_neg (by omega)]
    rw [ih (i + 1) (parts ++ [ragBlock i d]) (curLen + (ragBlock i d).length)
      (by simp only [sumLens]; omega)]
    simp [ragBlocksFrom]

theorem pySlice_length (s : String) (n : Nat) : (pySlice s n).length = min n s.length := by
  show (s.data.take n).length = min n s.data.length
  exact List.length_take n s.data

/-! ### Claims C4, C5: RAG context builder -/

/-- Claim C4 (amended): for a document list whose first block already exceeds
the budget, `create_rag_context` truncates the first document's content and
appends the truncation marker — the result has length at most `max_length`,
ends with the marker, and is non-empty — provided `max_length` exceeds the
header length by more than 150 (50 reserved for the truncation message plus
the `remaining_space > 100` guard); for smaller budgets the result is empty. -/
theorem create_rag_context_first_doc_truncated (d : Document) (rest : List Document)
    (max_length : Nat)
    (hbig : (ragBlock 0 d).length > max_length)
    (hroom : max_length > (ragHeader 0 d).length + 150) :
    create_rag_context (d :: rest) max_length
      = ragHeader 0 d
        ++ (pySlice (pyStrip d.page_content) (max_length - (ragHeader 0 d).length - 50)
            ++ ragTruncMarker)
    ∧ (create_rag_context (d :: rest) max_length).length ≤ max_length
    ∧ (∃ pre, create_rag_context (d :: rest) max_length = pre ++ ragTruncMarker)
    ∧ create_rag_context (d :: rest) max_length ≠ "" := by
  have hval : create_rag_context (d :: rest) max_length
      = ragHeader 0 d
        ++ (pySlice (pyStrip d.page_content) (max_length - (ragHeader 0 d).length - 50)
            ++ ragTruncMarker) := by
    unfold create_rag_context
    rw [if_neg (by simp)]
    simp only [ragLoop]
    rw [if_pos (by omega)]
    simp only [if_true, List.nil_append]
    rw [if_pos (by omega)]
    simp [pyJoin]
  have hlen : (create_rag_context (d :: rest) max_length).length ≤ max_length := by
    rw [hval]
    rw [String.length_append, String.length_append]
    have hslice := pySlice_length (pyStrip d.page_content) (max_length - (ragHeader 0 d).length - 50)
    have hmarker : ragTruncMarker.length = 10 := by decide
    omega
  refine ⟨hval, hlen, ?_, ?_⟩
  · exact ⟨ragHeader 0 d ++ pySlice (pyStrip d.page_content) (max_length - (ragHeader 0 d).length - 50),
      by rw [hval, String.append_assoc]⟩
  · intro hempty
    have h0 : (create_rag_context (d :: rest) max_length).length = 0 := by
      rw [hempty]
      rfl
    rw [hval, String.length_append, String.length_append] at h0
    have hhdr : (ragHeader 0 d).length
        = ("\n[Document: " : String).length + (d.source_file.getD ("Document " ++ toString (0 + 1))).length
          + ("]\n" : String).length := by
      simp [ragHeader, String.length_append]
    have h12 : ("\n[Document: " : String).length = 12 := by decide
    omega

/-- Witness for C4 at a concrete input: one 160-character document against a
budget of 166 (header length 15) yields a non-empty truncated context. -/
theorem create_rag_context_first_doc_truncated_witness :
    create_rag_context [⟨String.mk (List.replicate 160 'x'), some "a"⟩] 166 ≠ "" :=
  (create_rag_context_first_doc_truncated ⟨String.mk (List.replicate 160 'x'), some "a"⟩ [] 166
    (by decide) (by decide)).2.2.2

/-- Counterexample to claim C4 as stated: with a budget of 165, which exceeds
the header overhead (header length 15, even counting the 50-character
reserve), the returned context for a too-large first document is empty — it
is neither non-empty nor marker-terminated, because the code additionally
requires `max_length - len(header) - 50 > 100`. -/
theorem create_rag_context_gap_counterexample :
    165 > (ragHeader 0 ⟨String.mk (List.replicate 160 'x'), some "a"⟩).length + 50
    ∧ (ragBlock 0 ⟨String.mk (List.replicate 160 'x'), some "a"⟩).length > 165
    ∧ create_rag_context [⟨String.mk (List.replicate 160 'x'), some "a"⟩] 165 = "" := by
  refine ⟨by decide, by decide, by decide⟩

/-- Claim C5 (amended): when all blocks jointly fit within `max_length`, the
returned context is the list of whole blocks `"\n[Document: <name>]\n<stripped
content>"` in original document order joined with an additional newline
separator (not their plain concatenation); and in general the loop adds whole
blocks greedily in order, stopping as soon as the next whole block would push
the accumulated length over `max_length`. -/
theorem create_rag_context_all_fit (docs : List Document) (max_length : Nat)
    (hne : docs ≠ [])
    (hfit : sumLens (ragBlocksFrom 0 docs) ≤ max_length) :
    create_rag_context docs max_length = pyJoin "\n" (ragBlocksFrom 0 docs)
    ∧ ∀ (i : Nat) (parts : List String) (curLen : Nat) (d : Document) (rest : List Document),
        parts ≠ [] → curLen + (ragBlock i d).length > max_length →
        ragLoop max_length i parts curLen (d :: rest) = parts := by
  constructor
  · unfold create_rag_context
    rw [if_neg hne]
    rw [ragLoop_all_fit max_length docs 0 [] 0 (by simpa using hfit)]
    simp
  · intro i parts curLen d rest hne' hgt
    simp only [ragLoop]
    rw [if_pos hgt, if_neg hne']

/-- Witness for C5 at concrete inputs: two small documents that jointly fit,
and a greedy stop once a block no longer fits. -/
theorem create_rag_context_all_fit_witness :
    create_rag_context [⟨"c1", some "a"⟩, ⟨"c2", some "b"⟩] 100
      = pyJoin "\n" (ragBlocksFrom 0 [⟨"c1", some "a"⟩, ⟨"c2", some "b"⟩])
    ∧ ragLoop 100 0 ["x"] 100 [⟨"c1", some "a"⟩] = ["x"] :=
  ⟨(create_rag_context_all_fit [⟨"c1", some "a"⟩, ⟨"c2", some "b"⟩] 100
      (by decide) (by decide)).1,
   (create_rag_context_all_fit [⟨"c1", some "a"⟩] 100 (by decide) (by decide)).2
      0 ["x"] 100 ⟨"c1", some "a"⟩ [] (by decide) (by decide)⟩

/-- Counterexample to claim C5 as stated: for two jointly fitting documents
the result is not the plain concatenation of the `"[Document: <name>]\n<content>"`
blocks — each code block starts with an extra leading newline and the join
inserts one more newline between blocks. -/
theorem create_rag_context_concat_counterexample :
    create_rag_context [⟨"c1", some "a"⟩, ⟨"c2", some "b"⟩] 100
      ≠ spec_concat_blocks [⟨"c1", some "a"⟩, ⟨"c2", some "b"⟩]
    ∧ create_rag_context [⟨"c1", some "a"⟩, ⟨"c2", some "b"⟩] 100
      = "\n[Document: a]\nc1\n\n[Document: b]\nc2" := by
  refine ⟨by decide, by decide⟩

/-! ### Supervisor classification node (`supervisor.py`, `supervisor_node`) -/

/-- Result shape of the structured classification call (`RequestType`).
Confidence is modelled as a rational; the code only ever compares it to the
literal 0.5 produced by the fallback branch. -/
structure RequestTypeR where
  type : String
  confidence : ℚ
  reasoning : String
deriving DecidableEq

/-- Targets of the `Command(goto=...)` returned by the supervisor node. -/
inductive NodeTarget where
  | chat_agent
  | code_agent
  | endNode
deriving DecidableEq

/-- A `Command`: the goto target plus the update dict; every update key the
node can write is modelled as an `Option` so that absent keys are `none`. -/
structure Command where
  goto : NodeTarget
  request_type : Option String
  confidence : Option ℚ
  reasoning : Option String
  response : Option String
  conversation_messages : Option (List Msg)
  rag_context : Option String
  session_documents : Option (List Document)
deriving DecidableEq

/-- Graph state visible to the nodes: exactly the channels declared by
`SupervisorState` (`supervisor.py` lines 30-39, on top of `MessagesState`).
The langgraph `StateGraph` is channel-based — an input or update key with no
declared channel does not flow into the state the nodes read — so dict
entries like `currentCode` or `enable_incremental_updates` have no field
here; reads of such keys via `state.get` fall back to their defaults and are
modelled at the read sites (`code_agent_mode`). -/
structure GraphState where
  messages : List Msg
  request_type : String
  confidence : ℚ
  reasoning : String
  response : String
  generated_code : String
  filename : String
  language : String
  session_id : String
deriving DecidableEq

/-- RAG block appended to the classification context when the session has
documents (`supervisor.py` lines 108-117). -/
def ragContextBlock (document_context : String) : String :=
  "\n\n**업로드된 사용자 정보 (중요!):**\n" ++ document_context
    ++ "\n\n**RAG 지침:**\n- 위 업로드된 문서에는 사용자의 개인 정보, 경력, 기술 등이 포함되어 있습니다\n- 코드 생성 시 반드시 이 정보를 참조하여 개인화된 내용을 만들어주세요\n- 사용자의 실제 이름, 경력, 기술 스택 등을 코드에 반영해주세요\n"

/-- Model of `supervisor_node` (`supervisor.py` lines 81-182).  The structured
model invocation is opaque, so its outcome is a parameter: `.ok r` when the
classifier returns `r`, `.error e` when it raises with message `e`.  The node
reads (and lazily creates) the session history, gathers documents and the RAG
block, then routes; if classification raises, it falls back to the chat agent
with type `"chat"`, confidence 0.5 and a reasoning string naming the cause. -/
def supervisor_node (mem : MemState) (state : GraphState)
    (classifierResult : Except String RequestTypeR) : MemState × Command :=
  if state.messages = [] then
    (mem, { goto := .endNode, request_type := none, confidence := none, reasoning := none,
            response := some "No message to process", conversation_messages := none,
            rag_context := none, session_documents := none })
  else
    let session_id := state.session_id
    let ghr := get_session_history mem session_id
    let mem' := ghr.1
    let hist := ghr.2
    let session_documents := get_session_documents mem' session_id
    let conversation_messages := readMessages mem' hist
    let rag_context :=
      if session_documents ≠ [] then
        ragContextBlock (create_rag_context session_documents 1500)
      else ""
    match classifierResult with
    | .ok result =>
      (mem', { goto := if result.type = "code" then .code_agent else .chat_agent,
               request_type := some result.type, confidence := some result.confidence,
               reasoning := some result.reasoning, response := none,
               conversation_messages := some conversation_messages,
               rag_context := some rag_context,
               session_documents := some session_documents })
    | .error e =>
      (mem', { goto := .chat_agent, request_type := some "chat",
               confidence := some (1 / 2 : ℚ),
               reasoning := some ("Classification failed: " ++ e), response := none,
               conversation_messages := none, rag_context := none,
               session_documents := none })

/-! ### Claim C2: classifier failure fallback -/

/-- Claim C2: if the model invocation during classification raises for any
reason, the request is routed to the chat agent with request type `"chat"`,
confidence 0.5, and a reasoning string containing the failure cause; the node
returns a command (it never propagates the exception). -/
theorem supervisor_node_fallback (mem : MemState) (state : GraphState) (e : String)
    (hmsg : state.messages ≠ []) :
    (supervisor_node mem state (.error e)).2
      = { goto := .chat_agent, request_type := some "chat",
          confidence := some (1 / 2 : ℚ),
          reasoning := some ("Classification failed: " ++ e), response := none,
          conversation_messages := none, rag_context := none, session_documents := none }
    ∧ ∃ pre, (supervisor_node mem state (.error e)).2.reasoning = some (pre ++ e) := by
  have h : (supervisor_node mem state (.error e)).2
      = { goto := .chat_agent, request_type := some "chat",
          confidence := some (1 / 2 : ℚ),
          reasoning := some ("Classification failed: " ++ e), response := none,
          conversation_messages := none, rag_context := none, session_documents := none } := by
    unfold supervisor_node
    rw [if_neg hmsg]
  exact ⟨h, "Classification failed: ", by rw [h]⟩

/-- Witness for C2 at a concrete state with one pending message and the
classifier raising `"boom"`. -/
theorem supervisor_node_fallback_witness :
    (supervisor_node ⟨[], []⟩
        ⟨[Msg.human "hi"], "unknown", 0, "", "", "", "index.html", "html", "default"⟩
        (.error "boom")).2
      = { goto := .chat_agent, request_type := some "chat",
          confidence := some (1 / 2 : ℚ),
          reasoning := some ("Classification failed: boom"), response := none,
          conversation_messages := none, rag_context := none, session_documents := none } :=
  (supervisor_node_fallback ⟨[], []⟩
      ⟨[Msg.human "hi"], "unknown", 0, "", "", "", "index.html", "html", "default"⟩
      "boom" (by decide)).1

/-! ### JSON decoding (model of `json.loads` as used on the operations array) -/

/-- JSON values; numbers keep their raw token (the agent never computes with
them). -/
inductive Json where
  | null
  | bool (b : Bool)
  | num (raw : String)
  | str (s : String)
  | arr (elems : List Json)
  | obj (fields : List (String × Json))

/-- Whitespace accepted between JSON tokens. -/
def jsonWsChar (c : Char) : Bool :=
  c == ' ' || c == '\t' || c == '\n' || c == '\r'

/-- Skip inter-token whitespace. -/
def skipWs (l : List Char) : List Char := l.dropWhile jsonWsChar

/-- Hexadecimal digit test for `\u` escapes. -/
def isHexDigitChar (c : Char) : Bool :=
  c.isDigit || (97 ≤ c.toNat && c.toNat ≤ 102) || (65 ≤ c.toNat && c.toNat ≤ 70)

/-- Value of a hexadecimal digit. -/
def hexVal (c : Char) : Nat :=
  if c.isDigit then c.toNat - 48
  else if 97 ≤ c.toNat then c.toNat - 87
  else c.toNat - 55

/-- String-body parser: consumes up to and including the closing quote,
returning the decoded content and the rest.  Invalid escapes and raw control
characters are decode errors, as in `json.loads`.  (A `\u` escape denoting a
lone surrogate yields Python a lone-surrogate character; `Char.ofNat` maps it
to a default character instead — the decode still succeeds, only the decoded
value differs, and the agent never looks at decoded string values.) -/
def parseStrAux : List Char → Option (List Char × List Char)
  | [] => none
  | '"' :: rest => some ([], rest)
  | '\\' :: '"' :: rest => (parseStrAux rest).map (fun p => ('"' :: p.1, p.2))
  | '\\' :: '\\' :: rest => (parseStrAux rest).map (fun p => ('\\' :: p.1, p.2))
  | '\\' :: '/' :: rest => (parseStrAux rest).map (fun p => ('/' :: p.1, p.2))
  | '\\' :: 'b' :: rest => (parseStrAux rest).map (fun p => ('\x08' :: p.1, p.2))
  | '\\' :: 'f' :: rest => (parseStrAux rest).map (fun p => ('\x0c' :: p.1, p.2))
  | '\\' :: 'n' :: rest => (parseStrAux rest).map (fun p => ('\n' :: p.1, p.2))
  | '\\' :: 'r' :: rest => (parseStrAux rest).map (fun p => ('\r' :: p.1, p.2))
  | '\\' :: 't' :: rest => (parseStrAux rest).map (fun p => ('\t' :: p.1, p.2))
  | '\\' :: 'u' :: h1 :: h2 :: h3 :: h4 :: rest =>
    if isHexDigitChar h1 && isHexDigitChar h2 && isHexDigitChar h3 && isHexDigitChar h4 then
      (parseStrAux rest).map (fun p =>
        (Char.ofNat (((hexVal h1 * 16 + hexVal h2) * 16 + hexVal h3) * 16 + hexVal h4) :: p.1, p.2))
    else none
  | '\\' :: _ => none
  | c :: rest =>
    if c.toNat < 32 then none
    else (parseStrAux rest).map (fun p => (c :: p.1, p.2))

/-- Fractional part per the JSON number grammar (taken only when well-formed,
exactly like the regex-based scanner in Python's json module). -/
def scanFrac (raw rest : List Char) : List Char × List Char :=
  match rest with
  | '.' :: t =>
    match t with
    | d :: _ =>
      if d.isDigit then (raw ++ '.' :: t.takeWhile Char.isDigit, t.dropWhile Char.isDigit)
      else (raw, rest)
    | [] => (raw, rest)
  | _ => (raw, rest)

/-- Exponent part per the JSON number grammar. -/
def scanExp (raw rest : List Char) : List Char × List Char :=
  match rest with
  | e :: t =>
    if e == 'e' || e == 'E' then
      let st : List Char × List Char :=
        match t with
        | '+' :: t' => (['+'], t')
        | '-' :: t' => (['-'], t')
        | _ => ([], t)
      match st.2 with
      | d :: _ =>
        if d.isDigit then (raw ++ e :: st.1 ++ st.2.takeWhile Char.isDigit, st.2.dropWhile Char.isDigit)
        else (raw, e :: t)
      | [] => (raw, e :: t)
    else (raw, rest)
  | [] => (raw, rest)

/-- Number token per the JSON grammar `-?(0|[1-9][0-9]*)(\.[0-9]+)?([eE][+-]?[0-9]+)?`. -/
def parseNum (l : List Char) : Option (List Char × List Char) :=
  let st : List Char × List Char :=
    match l with
    | '-' :: t => (['-'], t)
    | _ => ([], l)
  match st.2 with
  | c :: t =>
    if c == '0' then
      let fr := scanFrac (st.1 ++ ['0']) t
      some (scanExp fr.1 fr.2)
    else if c.isDigit then
      let fr := scanFrac (st.1 ++ (c :: t).takeWhile Char.isDigit) ((c :: t).dropWhile Char.isDigit)
      some (scanExp fr.1 fr.2)
    else none
  | [] => none

mutual

/-- JSON value parser (fuel-indexed recursive descent).  `NaN`, `Infinity`
and `-Infinity` are accepted at value positions, as `json.loads` does by
default. -/
def parseVal : Nat → List Char → Option (Json × List Char)
  | 0, _ => none
  | Nat.succ fuel, l =>
    match skipWs l with
    | 'n' :: 'u' :: 'l' :: 'l' :: rest => some (.null, rest)
    | 't' :: 'r' :: 'u' :: 'e' :: rest => some (.bool true, rest)
    | 'f' :: 'a' :: 'l' :: 's' :: 'e' :: rest => some (.bool false, rest)
    | 'N' :: 'a' :: 'N' :: rest => some (.num "NaN", rest)
    | 'I' :: 'n' :: 'f' :: 'i' :: 'n' :: 'i' :: 't' :: 'y' :: rest => some (.num "Infinity", rest)
    | '-' :: 'I' :: 'n' :: 'f' :: 'i' :: 'n' :: 'i' :: 't' :: 'y' :: rest =>
      some (.num "-Infinity", rest)
    | '"' :: rest => (parseStrAux rest).map (fun p => (.str (String.mk p.1), p.2))
    | '[' :: rest => (parseArrItems fuel rest).map (fun p => (.arr p.1, p.2))
    | '{' :: rest => (parseObjItems fuel rest).map (fun p => (.obj p.1, p.2))
    | l' => (parseNum l').map (fun p => (.num (String.mk p.1), p.2))

/-- Array items after the opening bracket. -/
def parseArrItems : Nat → List Char → Option (List Json × List Char)
  | 0, _ => none
  | Nat.succ fuel, l =>
    match skipWs l with
    | ']' :: rest => some ([], rest)
    | l' =>
      match parseVal fuel l' with
      | none => none
      | some (v, r) => parseArrRest fuel [v] r

/-- Remaining array items after at least one has been parsed. -/
def parseArrRest : Nat → List Json → List Char → Option (List Json × List Char)
  | 0, _, _ => none
  | Nat.succ fuel, acc, l =>
    match skipWs l with
    | ']' :: rest => some (acc, rest)
    | ',' :: rest =>
      match parseVal fuel rest with
      | none => none
      | some (v, r) => parseArrRest fuel (acc ++ [v]) r
    | _ => none

/-- One `"key": value` member. -/
def parsePair : Nat → List Char → Option ((String × Json) × List Char)
  | 0, _ => none
  | Nat.succ fuel, l =>
    match skipWs l with
    | '"' :: rest =>
      match parseStrAux rest with
      | none => none
      | some (k, r) =>
        match skipWs r with
        | ':' :: r' => (parseVal fuel r').map (fun p => ((String.mk k, p.1), p.2))
        | _ => none
    | _ => none

/-- Object members after the opening brace. -/
def parseObjItems : Nat → List Char → Option (List (String × Json) × List Char)
  | 0, _ => none
  | Nat.succ fuel, l =>
    match skipWs l with
    | '}' :: rest => some ([], rest)
    | _ =>
      match parsePair fuel l with
      | none => none
      | some (kv, r) => parseObjRest fuel [kv] r

/-- Remaining object members after at least one has been parsed. -/
def parseObjRest : Nat → List (String × Json) → List Char → Option (List (String × Json) × List Char)
  | 0, _, _ => none
  | Nat.succ fuel, acc, l =>
    match skipWs l with
    | '}' :: rest => some (acc, rest)
    | ',' :: rest =>
      match parsePair fuel rest with
      | none => none
      | some (kv, r) => parseObjRest fuel (acc ++ [kv]) r
    | _ => none

end

/-- Model of `json.loads`: a full parse of the input with only trailing
whitespace remaining; `none` models a raised `json.JSONDecodeError`. -/
def jsonLoads (s : String) : Option Json :=
  match parseVal (s.length + 1) s.data with
  | none => none
  | some (v, rest) => if skipWs rest = [] then some v else none

/-! ### Operations-array extraction (model of
`re.search(r'INCREMENTAL_OPERATIONS:\s*(\[.*?\])', response_text, re.DOTALL)`) -/

/-- The literal marker of the pattern. -/
def opsMarker : List Char := "INCREMENTAL_OPERATIONS:".data

/-- Suffix immediately after the first occurrence of `marker`, if any. -/
def dropAfterMarker (marker : List Char) : List Char → Option (List Char)
  | [] => none
  | c :: rest =>
    if charsPrefix marker (c :: rest) then some ((c :: rest).drop marker.length)
    else dropAfterMarker marker rest

theorem dropAfterMarker_length_lt (marker : List Char) (hm : marker ≠ []) :
    ∀ (l r : List Char), dropAfterMarker marker l = some r → r.length < l.length := by
  intro l
  induction l with
  | nil => intro r h; simp [dropAfterMarker] at h
  | cons c rest ih =>
    intro r h
    have hlen : 0 < marker.length := by
      cases marker with
      | nil => exact absurd rfl hm
      | cons x xs => simp
    simp only [dropAfterMarker] at h
    split at h
    · have hr : r = (c :: rest).drop marker.length := by
        injection h with h'
        exact h'.symm
      subst hr
      simp only [List.length_drop, List.length_cons]
      omega
    · have := ih r h
      simp only [List.length_cons]
      omega

/-- Characters strictly before the first `']'`, if one occurs. -/
def takeUntilRBracket : List Char → Option (List Char)
  | [] => none
  | c :: rest =>
    if c == ']' then some []
    else (takeUntilRBracket rest).map (fun t => c :: t)

/-- Model of the lazy-regex search: scan marker occurrences left to right; at
the first occurrence followed (after `\s*`) by `'['` with a later `']'`, the
captured group runs from that `'['` to the first `']'` after it; otherwise the
search resumes after the marker occurrence. -/
def regexSearchChars : Nat → List Char → Option (List Char)
  | 0, _ => none
  | Nat.succ n, text =>
    match dropAfterMarker opsMarker text with
    | none => none
    | some afterMarker =>
      match afterMarker.dropWhile isPySpace with
      | '[' :: tail =>
        match takeUntilRBracket tail with
        | some mid => some ('[' :: (mid ++ [']']))
        | none => regexSearchChars n afterMarker
      | _ => regexSearchChars n afterMarker

/-- String-level wrapper of the operations-array search.  The fuel
`s.length + 1` is sufficient because `dropAfterMarker` strictly shrinks the
text on every resumed scan (`dropAfterMarker_length_lt`). -/
def regexSearchOps (s : String) : Option String :=
  (regexSearchChars (s.data.length + 1) s.data).map String.mk

/-! ### Code agent response parsing (`supervisor.py` lines 420-505) -/

/-- One edit operation (`CodeOperation` in `schemas.py`); fields hold the raw
JSON values fetched with `op.get(...)` and its defaults. -/
structure CodeOperation where
  operation : Json
  target : Json
  old_content : Option Json
  new_content : Json
  line_start : Option Json
  line_end : Option Json

/-- An incremental update (`IncrementalCodeUpdate` in `schemas.py`). -/
structure IncrementalUpdate where
  update_type : String
  operations : List CodeOperation
  explanation : String
  estimated_impact : String

/-- Outcome of parsing one model reply: the artifact fields of the state
update built at `supervisor.py` lines 512-522. -/
structure ParseResult where
  code : String
  explanation : String
  filename : String
  language : String
  incremental_update : Option IncrementalUpdate

/-- Python exceptions that escape the inner `except (json.JSONDecodeError,
KeyError, ValueError)` clause and abort the parse (they are then caught by the
outer handler at line 523, which returns an error response instead). -/
inductive PyExc where
  | moduleNotFound
deriving DecidableEq

/-- Standard full-generation parsing (`supervisor.py` lines 476-505), applied
whenever no incremental update was produced: split once on `CODE:` (Python
`split` makes `parts[1]` the text between the first two occurrences), then on
`FILENAME:` and `LANGUAGE:` inside it; extract the explanation after
`EXPLANATION:` (cut at `CODE:` when present); if the resulting code is empty,
the whole reply becomes the code and a generic explanation is substituted. -/
def fullParse (currentFilename currentLanguage : Option String) (response_text : String) :
    ParseResult :=
  let filename0 := pyOrD currentFilename "index.html"
  let language0 := pyOrD currentLanguage "html"
  let cfl : String × String × String :=
    if pyIn response_text "CODE:" then
      let parts := pySplit response_text "CODE:"
      if parts.length > 1 then
        let code := pyStrip (parts.getD 1 "")
        if pyIn code "FILENAME:" then
          let code_parts := pySplit code "FILENAME:"
          let code' := pyStrip (code_parts.getD 0 "")
          if code_parts.length > 1 then
            let filename_part := pyStrip (code_parts.getD 1 "")
            if pyIn filename_part "LANGUAGE:" then
              let filename_lang_parts := pySplit filename_part "LANGUAGE:"
              let filename := pyStrip (filename_lang_parts.getD 0 "")
              if filename_lang_parts.length > 1 then
                (code', filename, pyLower (pyStrip (filename_lang_parts.getD 1 "")))
              else (code', filename, language0)
            else (code', filename_part, language0)
          else (code', filename0, language0)
        else (code, filename0, language0)
      else ("", filename0, language0)
    else ("", filename0, language0)
  let explanation :=
    if pyIn response_text "EXPLANATION:" then
      let explanation_part := (pySplit response_text "EXPLANATION:").getD 1 ""
      if pyIn explanation_part "CODE:" then
        pyStrip ((pySplit explanation_part "CODE:").getD 0 "")
      else pyStrip explanation_part
    else ""
  let final : String × String :=
    if cfl.1 = "" then (response_text, "Generated code based on your request")
    else (cfl.1, explanation)
  { code := final.1, explanation := final.2,
    filename := cfl.2.1, language := cfl.2.2, incremental_update := none }

/-- Extraction-and-decode step of the incremental branch (`supervisor.py`
lines 437-474).  Returns `.ok none` when the regex finds no `[...]` group or
`json.loads` raises a `JSONDecodeError` (that error is in the caught class
list, so `incremental_update` stays `None`).  When decoding succeeds the next
statement is the function-level import `from ..models.schemas import
CodeOperation, IncrementalCodeUpdate`, which resolves to
`app.services.models.schemas` — a module that does not exist in the
repository — so a `ModuleNotFoundError` is raised; it is not among the caught
classes and escapes to the outer handler.  (The explanation extracted inside
the `try` is recomputed or overwritten by the fallback full parse, so it is
not observable here.) -/
def incremental_ops_attempt (response_text : String) :
    Except PyExc (Option IncrementalUpdate) :=
  match regexSearchOps response_text with
  | none => .ok none
  | some opsJson =>
    match jsonLoads opsJson with
    | none => .ok none
    | some _ => .error .moduleNotFound

/-- Parsing of one code-agent reply (`supervisor.py` lines 425-505): the
incremental branch runs only when the reply contains
`INCREMENTAL_OPERATIONS:` and existing editor code was supplied; if it leaves
`incremental_update` at `None`, standard full-generation parsing of the raw
reply runs.  The `.ok some` arm mirrors lines 507-522 but is unreachable in
the current code because the import failure above always precedes it. -/
def parse_code_response (has_existing_code : Bool)
    (currentFilename currentLanguage : Option String) (response_text : String) :
    Except PyExc ParseResult :=
  if pyIn response_text "INCREMENTAL_OPERATIONS:" && has_existing_code then
    match incremental_ops_attempt response_text with
    | .error exc => .error exc
    | .ok (some iu) =>
      .ok { code := "", explanation := iu.explanation,
            filename := pyOrD currentFilename "index.html",
            language := pyOrD currentLanguage "html",
            incremental_update := some iu }
    | .ok none => .ok (fullParse currentFilename currentLanguage response_text)
  else .ok (fullParse currentFilename currentLanguage response_text)

theorem fullParse_incremental_none (cf cl : Option String) (t : String) :
    (fullParse cf cl t).incremental_update = none := rfl

theorem fullParse_no_code_marker (cf cl : Option String) (t : String)
    (h : pyIn t "CODE:" = false) :
    (fullParse cf cl t).code = t
    ∧ (fullParse cf cl t).explanation = "Generated code based on your request" := by
  constructor <;> simp [fullParse, h]

/-! ### Claims C7, C6: code agent parsing contracts -/

/-- Claim C7: full-generation parsing of the reply
`"EXPLANATION: fixes bug\nCODE:\n<p>hi</p>\nFILENAME: index.html\nLANGUAGE: html"`
yields explanation `"fixes bug"`, code `"<p>hi</p>"`, filename `"index.html"`
and language `"html"`; and for any reply with no `CODE:` marker the entire
reply text becomes the code with a generic explanation substituted, so the
agent never returns an empty artifact when the model responded with content. -/
theorem full_generation_parsing_spec :
    fullParse none none "EXPLANATION: fixes bug\nCODE:\n<p>hi</p>\nFILENAME: index.html\nLANGUAGE: html"
      = { code := "<p>hi</p>", explanation := "fixes bug", filename := "index.html",
          language := "html", incremental_update := none }
    ∧ ∀ (cf cl : Option String) (text : String), pyIn text "CODE:" = false →
        (fullParse cf cl text).code = text
        ∧ (fullParse cf cl text).explanation = "Generated code based on your request" := by
  refine ⟨?_, fun cf cl text h => fullParse_no_code_marker cf cl text h⟩
  rfl

/-- Witness for C7's universal part at a marker-free reply. -/
theorem full_generation_parsing_spec_witness :
    (fullParse none none "just some prose").code = "just some prose"
    ∧ (fullParse none none "just some prose").explanation
        = "Generated code based on your request" :=
  full_generation_parsing_spec.2 none none "just some prose" (by decide)

/-- Claim C6: in incremental mode, when JSON decoding of the located
`INCREMENTAL_OPERATIONS` array fails, the incremental update is discarded
(`incremental_update` is `none`) and the agent falls back to full-generation
parsing of the raw reply — in particular, with no `CODE:` marker the returned
code is the full raw reply text — and the fallback result never carries a
partially parsed edit set. -/
theorem incremental_decode_failure_falls_back (cf cl : Option String) (text js : String)
    (hmarker : pyIn text "INCREMENTAL_OPERATIONS:" = true)
    (hre : regexSearchOps text = some js)
    (hjson : (jsonLoads js).isNone = true) :
    parse_code_response true cf cl text = .ok (fullParse cf cl text)
    ∧ (fullParse cf cl text).incremental_update = none
    ∧ (pyIn text "CODE:" = false → (fullParse cf cl text).code = text) := by
  have hj : jsonLoads js = none := Option.isNone_iff_eq_none.mp hjson
  have hatt : incremental_ops_attempt text = .ok none := by
    simp [incremental_ops_attempt, hre, hj]
  refine ⟨?_, fullParse_incremental_none cf cl text,
    fun h => (fullParse_no_code_marker cf cl text h).1⟩
  simp [parse_code_response, hmarker, hatt]

/-- Witness for C6 at a reply whose operations array `[{]` is malformed JSON
and which contains no `CODE:` marker. -/
theorem incremental_decode_failure_witness :
    parse_code_response true none none "EXPLANATION: x\nINCREMENTAL_OPERATIONS: [\x7b]"
      = .ok (fullParse none none "EXPLANATION: x\nINCREMENTAL_OPERATIONS: [\x7b]") :=
  (incremental_decode_failure_falls_back none none
    "EXPLANATION: x\nINCREMENTAL_OPERATIONS: [\x7b]" "[\x7b]"
    (by decide) (by decide) (by decide)).1

/-! ### Orchestrator (`Supervisor.process_request`) and HTTP wrapper
(`supervisor_routing`) -/

/-- Azure configuration block (only its presence matters to `_create_llm`). -/
structure AzureOpenAIConfig where
  endpoint : String
  apiKey : String
  apiVersion : String
  deploymentName : String
deriving DecidableEq

/-- The provider-relevant slice of `UserConfig` (`schemas.py`). -/
structure UserConfig where
  aiProvider : String
  azureOpenAIConfig : Option AzureOpenAIConfig
  openaiApiKey : Option String
  openaiModel : Option String
  anthropicApiKey : Option String
  anthropicModel : Option String
  sessionId : Option String
deriving DecidableEq

/-- Model of `Supervisor._create_llm`: raises `ValueError` ("Invalid AI
provider configuration") unless one of the three provider branches matches;
Python truthiness makes an empty-string key falsy. -/
def create_llm (config : UserConfig) : Except String Unit :=
  if config.aiProvider = "azure_openai" ∧ config.azureOpenAIConfig.isSome then .ok ()
  else if config.aiProvider = "openai" ∧ pyTruthyStr config.openaiApiKey = true then .ok ()
  else if config.aiProvider = "anthropic" ∧ pyTruthyStr config.anthropicApiKey = true then .ok ()
  else .error "Invalid AI provider configuration"

/-- Inbound request (`SupervisorRequest` in `schemas.py`); the schema gives
`enable_incremental_updates` the default `True`, and the caller may set it. -/
structure SupervisorRequest where
  prompt : String
  config : UserConfig
  session_id : Option String
  currentCode : Option String
  currentFilename : Option String
  currentLanguage : Option String
  enable_incremental_updates : Bool
deriving DecidableEq

/-- Session id resolution (`supervisor.py` line 572): Python
`request.session_id or request.config.sessionId or 'default'`. -/
def sessionIdOf (req : SupervisorRequest) : String :=
  pyOrD req.session_id (pyOrD req.config.sessionId "default")

/-- The graph state that `graph.invoke` materializes from the `initial_state`
dict (`supervisor.py` lines 575-588).  The dict also carries `currentCode`,
`currentFilename` and `currentLanguage` entries (and never an
`enable_incremental_updates` entry), but `SupervisorState` declares no
channels for any of them, so langgraph drops them at the invoke boundary and
they do not survive into the state the nodes read. -/
def initial_state (req : SupervisorRequest) : GraphState :=
  { messages := [Msg.human req.prompt], request_type := "unknown", confidence := 0,
    reasoning := "", response := "", generated_code := "", filename := "index.html",
    language := "html", session_id := sessionIdOf req }

/-- The two prompt modes of the code agent. -/
inductive CodeMode where
  | incremental
  | full
deriving DecidableEq

/-- Mode decision of `code_agent` (`supervisor.py` lines 344-348):
`enable_incremental = state.get("enable_incremental_updates", True)` and
`has_existing_code = current_code and current_code.strip()` with
`current_code = state.get("currentCode")` (line 308).  Neither key is a
declared `SupervisorState` channel, so both reads miss: the flag defaults to
`True`, `current_code` is `None`, `has_existing_code` is falsy, and the
full-generation branch is the only reachable one. -/
def code_agent_mode (_state : GraphState) : CodeMode :=
  let enable_incremental := (none : Option Bool).getD true
  let current_code : Option String := none
  let has_existing_code :=
    match current_code with
    | some c => !c.isEmpty && !(pyStrip c).isEmpty
    | none => false
  if enable_incremental && has_existing_code then .incremental else .full

/-- What happens on entering the chosen branch of `code_agent`, before any
model call. -/
inductive CodeAgentEntry where
  | incrementalPrompt
  | nameErrorRagContext
deriving DecidableEq

/-- Model of entering the chosen prompt branch (`supervisor.py` lines
348-418): the full-generation prompt f-string references `rag_context`
(line 393), a name bound only inside `supervisor_node`, so Python raises
`NameError` while building the prompt — before the `try` at line 420 — and
the exception escapes `code_agent` to the orchestrator boundary; the
incremental prompt references only bound names. -/
def code_agent_entry (state : GraphState) : CodeAgentEntry :=
  match code_agent_mode state with
  | CodeMode.incremental => .incrementalPrompt
  | CodeMode.full => .nameErrorRagContext

/-- Final graph state of one traversal, as read by `process_request` via
`result.get(...)` (`supervisor.py` lines 595-605). -/
structure ResultState where
  request_type : String
  confidence : ℚ
  reasoning : String
  response : String
  generated_code : String
  filename : String
  language : String
  incremental_update : Option IncrementalUpdate
  messages : List Msg

/-- The dict returned by `process_request`.  Neither branch writes a
`success` key; the error branch also omits `incremental_update`, hence the
double `Option` (outer `none` = key absent). -/
structure ProcResult where
  request_type : String
  confidence : ℚ
  reasoning : String
  response : String
  generated_code : String
  filename : String
  language : String
  incremental_update : Option (Option IncrementalUpdate)
  messages : List Msg
  session_id : String

/-- Model of `Supervisor.process_request` (`supervisor.py` lines 565-626) for
a freshly constructed `Supervisor` (the endpoint builds a new one per
request, so the graph is always built here).  Graph construction — which
calls `_create_llm` — happens before the `try`, so its `ValueError` escapes
as `.error`.  The traversal itself involves the model and is a parameter;
memory writes performed inside a successful traversal happen within the
agents and are outside this function.  On a traversal error the user turn and
an error assistant turn are appended to the session history and an error
payload without a `success` key is returned. -/
def process_request (req : SupervisorRequest) (mem : MemState)
    (traversal : Except String ResultState) : MemState × Except String ProcResult :=
  match create_llm req.config with
  | .error e => (mem, .error e)
  | .ok _ =>
    let session_id := sessionIdOf req
    match traversal with
    | .ok r =>
      (mem, .ok { request_type := r.request_type, confidence := r.confidence,
                  reasoning := r.reasoning, response := r.response,
                  generated_code := r.generated_code, filename := r.filename,
                  language := r.language, incremental_update := some r.incremental_update,
                  messages := r.messages, session_id := session_id })
    | .error e =>
      let ghr := get_session_history mem session_id
      let mem' := addMessage (addMessage ghr.1 ghr.2 (Msg.human req.prompt)) ghr.2
        (Msg.ai ("오류 발생: " ++ e))
      (mem', .ok { request_type := "error", confidence := 0,
                   reasoning := "Processing error: " ++ e,
                   response := "죄송합니다. 요청 처리 중 오류가 발생했습니다: " ++ e,
                   generated_code := "", filename := "index.html", language := "html",
                   incremental_update := none,
                   messages := [Msg.human req.prompt], session_id := session_id })

/-- The `SupervisorResponse` pydantic model (`schemas.py`). -/
structure SupervisorResponse where
  request_type : String
  confidence : ℚ
  reasoning : String
  response : String
  generated_code : String
  filename : String
  language : String
  incremental_update : Option IncrementalUpdate
  success : Bool

/-- Model of the `/supervisor` endpoint (`chat.py` lines 189-233): whenever
`process_request` returns a dict, the endpoint wraps it with `success=True`
(and without `incremental_update`, which pydantic defaults to `None`); only
an exception escaping `process_request` reaches the `except` branch, which
builds the `success=False` payload. -/
def supervisor_routing (req : SupervisorRequest) (mem : MemState)
    (traversal : Except String ResultState) : MemState × SupervisorResponse :=
  let pr := process_request req mem traversal
  match pr.2 with
  | .ok r =>
    (pr.1, { request_type := r.request_type, confidence := r.confidence,
             reasoning := r.reasoning, response := r.response,
             generated_code := r.generated_code, filename := r.filename,
             language := r.language, incremental_update := none, success := true })
  | .error e =>
    (pr.1, { request_type := "error", confidence := 0,
             reasoning := "Processing error: " ++ e,
             response := "죄송합니다. 요청 처리 중 오류가 발생했습니다: " ++ e,
             generated_code := "", filename := "index.html", language := "html",
             incremental_update := none, success := false })

theorem readMessages_double_append (mem : MemState) (sid : String) (u a : Msg) :
    readMessages (addMessage (addMessage (get_session_history mem sid).1
        (get_session_history mem sid).2 u) (get_session_history mem sid).2 a) sid
      = readMessages mem sid ++ [u, a] := by
  cases hg : dictGet sid mem.chat_histories with
  | some msgs =>
    have h1 : get_session_history mem sid = (mem, sid) := by
      simp [get_session_history, hg]
    rw [h1]
    simp [readMessages, addMessage, dictGet_update_self, hg]
  | none =>
    have h1 : get_session_history mem sid
        = ({ mem with chat_histories := mem.chat_histories ++ [(sid, [])] }, sid) := by
      simp [get_session_history, hg]
    rw [h1]
    have hg2 := dictGet_append_self sid ([] : List Msg) mem.chat_histories hg
    simp [readMessages, addMessage, dictGet_update_self, hg, hg2]

/-! ### Claim C1: incremental mode selection -/

/-- Concrete valid OpenAI configuration used in witnesses. -/
def cfgOpenAI : UserConfig := ⟨"openai", none, some "sk-test", none, none, none, none⟩

/-- Concrete invalid configuration (empty API key is falsy in Python). -/
def cfgInvalid : UserConfig := ⟨"openai", none, some "", none, none, none, none⟩

/-- Concrete request with `enable_incremental_updates = true` and non-blank
editor code — the inputs for which the claim promises incremental mode. -/
def reqIncremental : SupervisorRequest :=
  ⟨"change the title", cfgOpenAI, some "s1", some "<p>old</p>", none, none, true⟩

/-- Claim C1 (evaluation at the failing input): a code-classified request
with `enable_incremental_updates = true` and non-blank editor code still
selects full-generation mode — incremental mode is unreachable for every
graph state, because `SupervisorState` declares no channels for the editor
context or the flag, langgraph drops those `initial_state` keys, and
`code_agent`'s reads of them miss; entering the full-generation branch then
raises `NameError` on the unbound `rag_context`, so no reply is ever parsed
and `incremental_update` is never set. -/
theorem incremental_mode_unreachable :
    reqIncremental.enable_incremental_updates = true
    ∧ reqIncremental.currentCode = some "<p>old</p>"
    ∧ code_agent_mode (initial_state reqIncremental) = CodeMode.full
    ∧ code_agent_entry (initial_state reqIncremental) = CodeAgentEntry.nameErrorRagContext
    ∧ ∀ (st : GraphState), code_agent_mode st = CodeMode.full :=
  ⟨rfl, rfl, rfl, rfl, fun _ => rfl⟩

/-! ### Claim C3: orchestrator error boundary -/

/-- Claim C3 (amended): when the supervisor graph was constructed (valid
provider configuration), a traversal error is caught once in
`process_request`, recorded to the session log as the user turn plus an error
assistant turn, and converted into a payload with request type `"error"` and
a human-readable message — but the payload carries no success flag, and the
HTTP wrapper returns it with `success = true`; an invalid provider
configuration instead raises during graph construction, escapes
`process_request`, and only the HTTP layer's handler turns it into a
`success = false` response. -/
theorem process_request_error_boundary (req : SupervisorRequest) (mem : MemState) (e : String)
    (hllm : create_llm req.config = .ok ()) :
    (process_request req mem (.error e)).2
      = .ok ⟨"error", 0, "Processing error: " ++ e,
             "죄송합니다. 요청 처리 중 오류가 발생했습니다: " ++ e,
             "", "index.html", "html", none, [Msg.human req.prompt], sessionIdOf req⟩
    ∧ readMessages (process_request req mem (.error e)).1 (sessionIdOf req)
        = readMessages mem (sessionIdOf req)
          ++ [Msg.human req.prompt, Msg.ai ("오류 발생: " ++ e)]
    ∧ (supervisor_routing req mem (.error e)).2.request_type = "error"
    ∧ (supervisor_routing req mem (.error e)).2.success = true
    ∧ ∀ (req' : SupervisorRequest) (mem' : MemState) (t : Except String ResultState)
        (e' : String), create_llm req'.config = .error e' →
        process_request req' mem' t = (mem', .error e')
        ∧ (supervisor_routing req' mem' t).2.success = false := by
  refine ⟨?_, ?_, ?_, ?_, ?_⟩
  · simp [process_request, hllm]
  · have h := readMessages_double_append mem (sessionIdOf req) (Msg.human req.prompt)
      (Msg.ai ("오류 발생: " ++ e))
    simpa [process_request, hllm] using h
  · simp [supervisor_routing, process_request, hllm]
  · simp [supervisor_routing, process_request, hllm]
  · intro req' mem' t e' herr
    refine ⟨?_, ?_⟩
    · simp [process_request, herr]
    · simp [supervisor_routing, process_request, herr]

/-- Witness for C3's amended statement at a concrete request with a valid
OpenAI configuration and a traversal failure `"boom"`. -/
theorem process_request_error_boundary_witness :
    (supervisor_routing ⟨"hi", cfgOpenAI, none, none, none, none, true⟩
      ⟨[], []⟩ (.error "boom")).2.success = true :=
  (process_request_error_boundary ⟨"hi", cfgOpenAI, none, none, none, none, true⟩
    ⟨[], []⟩ "boom" (by rfl)).2.2.2.1

/-- Counterexample to claim C3 as stated: a traversal failure surfaces to the
caller as `request_type = "error"` with `success = true` (the error dict has
no success key and the endpoint hardcodes `success=True` on the non-exception
path), and an invalid provider configuration escapes `process_request` as an
exception rather than being converted at the orchestrator boundary. -/
theorem supervisor_error_success_counterexample :
    (supervisor_routing ⟨"hi", cfgOpenAI, none, none, none, none, true⟩
      ⟨[], []⟩ (.error "boom")).2.request_type = "error"
    ∧ (supervisor_routing ⟨"hi", cfgOpenAI, none, none, none, none, true⟩
      ⟨[], []⟩ (.error "boom")).2.success = true
    ∧ (process_request ⟨"hi", cfgInvalid, none, none, none, none, true⟩
      ⟨[], []⟩ (.error "x")).2 = .error "Invalid AI provider configuration" :=
  ⟨rfl, rfl, rfl⟩
